import Mathlib

/-!
Shallow embedding of the call-screening webhook (`app.py`): the mode state
store, the control API (`set_mode`, `clear_mode`, `status`), the urgency
classifier (`is_urgent`, keyword configuration), the reply composer
(`mode_reply`) and the two call-handling webhook handlers (`incoming_call`,
`process_recording`).

Conventions of the embedding:
* Time is an `Int` measured in minutes since an arbitrary epoch;
  `datetime.utcnow()` becomes an explicit `now : Int` parameter and
  `timedelta(minutes=d)` becomes `+ d`.
* The JSON state file is modelled by explicit record passing: a function that
  in Python reads and/or writes `state.json` takes the current persisted
  record as an argument and returns the persisted record as it is after the
  function finished.  `FileState` additionally models the missing/corrupt
  file cases for the `load_state` error path.
* The `expires` field of the JSON blob is either `null`, a non-empty string
  that `datetime.fromisoformat` rejects (`malformed`), or a parseable
  timestamp (`time t`).
* Python truthiness of an optional string (`None` and `""` are falsy) is
  `pyTruthy`.
* The external LLM is not configured (`LLM_API_KEY` unset), so `is_urgent`
  is the keyword fallback, and external effects of `process_recording`
  (recording fetch, speech-to-text) are parameters: `fetch_ok` tells whether
  `requests.get` succeeded, `stt` is the transcription result (`none` when
  `recognize_google` raised, which the code turns into `""`).
-/

namespace CallAI

/-- The `expires` field of the persisted JSON record. -/
inductive ExpiresField
  | null
  | malformed
  | time (t : Int)
deriving DecidableEq

/-- The single persisted mode record (the shape written by `save_state`). -/
structure ModeRecord where
  mode : String
  reason : String
  active : Bool
  expires : ExpiresField
  user_number : Option String
deriving DecidableEq

/-- Python truthiness of an optional string: `None` and `""` are falsy. -/
def pyTruthy : Option String → Bool
  | none => false
  | some s => !s.isEmpty

/-- The default record created by `load_state` when no state file exists. -/
def default_state : ModeRecord :=
  { mode := "normal", reason := "", active := false,
    expires := ExpiresField.null, user_number := none }

/-- The state file as seen by `load_state`: absent, present but not valid
JSON, or holding a record. -/
inductive FileState
  | missing
  | corrupt
  | valid (r : ModeRecord)
deriving DecidableEq

/-- `load_state`: creates and persists the default record when the file is
missing; `json.load` raises (modelled by `Except.error`) when the file exists
but is not valid JSON; otherwise returns the stored record.  The returned
`FileState` is the file content after the call. -/
def load_state : FileState → Except Unit (ModeRecord × FileState)
  | FileState.missing => Except.ok (default_state, FileState.valid default_state)
  | FileState.corrupt => Except.error ()
  | FileState.valid r => Except.ok (r, FileState.valid r)

/-- `is_mode_active()`: returns the active flag and the persisted record after
the call (it self-heals on a malformed or expired `expires`).  Takes the
loaded record (the file is assumed valid here; see `load_state` for the
corrupt path). -/
def is_mode_active (store : ModeRecord) (now : Int) : Bool × ModeRecord :=
  if store.active = false then (false, store)
  else
    match store.expires with
    | ExpiresField.null => (false, store)
    | ExpiresField.malformed => (false, { store with active := false })
    | ExpiresField.time t =>
        if now > t then (false, { store with active := false, expires := ExpiresField.null })
        else (true, store)

/-- The `GET /status` handler.  It loads `state` first, then calls
`is_mode_active()` (which re-loads the file and may save a healed record),
then assigns the returned flag into its own pre-heal snapshot and saves that,
overwriting whatever `is_mode_active` persisted.  Returns
`(response record, final persisted record)`. -/
def status (store : ModeRecord) (now : Int) : ModeRecord × ModeRecord :=
  ({ store with active := (is_mode_active store now).1 },
   { store with active := (is_mode_active store now).1 })

/-- The duration handling of `set_mode`: `int(data.get("duration", 5))`
followed by clamping to `[1, 60]` inside the same `try`, with the bare
`except` yielding `5`.  The argument encodes the JSON field: `none` when the
field is absent (so `int(5)` is clamped), `some none` when present but
`int()` raises, `some (some d)` when `int()` yields `d`. -/
def parse_duration : Option (Option Int) → Int
  | none => if (5 : Int) < 1 then 1 else if (5 : Int) > 60 then 60 else 5
  | some none => 5
  | some (some d) => if d < 1 then 1 else if d > 60 then 60 else d

/-- The JSON body of a `POST /set-mode` request; `none` marks an absent
field. -/
structure SetModeRequest where
  mode : Option String
  reason : Option String
  duration : Option (Option Int)
  user_number : Option String
deriving DecidableEq

/-- The `POST /set-mode` handler: builds a fresh record from the request
(no read of the previous state) and persists it wholesale.  Returns the
persisted record (which the handler also echoes in its JSON response). -/
def set_mode (req : SetModeRequest) (now : Int) : ModeRecord :=
  { mode := req.mode.getD "normal",
    reason := req.reason.getD "",
    active := true,
    expires := ExpiresField.time (now + parse_duration req.duration),
    user_number := req.user_number }

/-- The `POST /clear-mode` handler: loads the record, resets
`active/mode/reason/expires` in place and persists it.  Returns the persisted
record. -/
def clear_mode (store : ModeRecord) : ModeRecord :=
  { store with active := false, mode := "normal", reason := "",
               expires := ExpiresField.null }

/-- Characters stripped by Python's `str.strip()` (the ASCII whitespace
characters; `str.lower()` fixes all of them). -/
def isWS (c : Char) : Bool :=
  c == ' ' || c == '\t' || c == '\n' || c == '\r' || c == '\x0b' || c == '\x0c'

/-- Python `text.strip()` on a character list. -/
def pyStrip (l : List Char) : List Char :=
  ((l.dropWhile isWS).reverse.dropWhile isWS).reverse

/-- Python `text.lower()` on a character list. -/
def pyLower (l : List Char) : List Char := l.map Char.toLower

/-- The fixed urgency vocabulary of the keyword fallback. -/
def urgent_words : List (List Char) :=
  ["urgent".toList, "emergency".toList, "important".toList, "asap".toList,
   "immediately".toList, "help".toList]

/-- `is_urgent(text)` with no LLM credential configured (`LLM_API_KEY`
unset), so the keyword fallback runs: strip, return `False` on a falsy
(empty) result, else test each vocabulary word for substring membership in
the lower-cased text. -/
def is_urgent (text : List Char) : Bool :=
  if pyStrip text = [] then false
  else urgent_words.any (fun w => decide (w <:+: pyLower (pyStrip text)))

/-- Modelled from the spec: the keyword-scan reference function that C6
compares `classify` against — `false` for empty or whitespace-only input,
else `true` exactly when the lower-cased text contains at least one
vocabulary word as a substring. -/
def keyword_scan_spec (text : List Char) : Bool :=
  if text.all isWS then false
  else urgent_words.any (fun w => decide (w <:+: pyLower text))

/-- `mode_reply(state, text)`: the static reply composer.  The transcript
argument is unused by the code. -/
def mode_reply (state : ModeRecord) (_text : List Char) : String :=
  if state.mode = "sleep" then
    "The user is currently sleeping. I will notify them."
  else if state.mode = "meeting" then
    "The user is in a meeting and cannot take calls right now."
  else if state.mode = "driving" then
    "The user is driving. I will tell them to call you when safe."
  else if state.mode = "custom" then
    if state.reason ≠ "" then
      "The user is not available: " ++ state.reason ++ ". I will let them know."
    else "The user is currently unavailable. I will notify them."
  else "The user is not available right now. They will call you back soon."

/-- One TwiML verb of a webhook response. -/
inductive Twiml
  | say (msg : String)
  | record_action (action : String) (play_beep : Bool) (timeout : Int) (max_length : Int)
  | dial (number : String)
  | hangup
deriving DecidableEq

/-- The `POST /incoming-call` handler: calls `is_mode_active()` (which may
heal and persist), re-loads the state for the mode-aware greeting when
active, then speaks the greeting and records.  Returns
`(TwiML response, persisted record after the call)`. -/
def incoming_call (store : ModeRecord) (now : Int) : List Twiml × ModeRecord :=
  if (is_mode_active store now).1 then
    ([Twiml.say ("The user is currently in " ++ (is_mode_active store now).2.mode
        ++ " mode. Please speak after the beep."),
      Twiml.record_action "/process-recording" true 60 120],
     (is_mode_active store now).2)
  else
    ([Twiml.say "Hello! I am your AI assistant. Please speak after the beep.",
      Twiml.record_action "/process-recording" true 60 120],
     (is_mode_active store now).2)

/-- `incoming_call` over the raw file, showing how a `load_state` failure
propagates out of the handler. -/
def incoming_call_file (fs : FileState) (now : Int) :
    Except Unit (List Twiml × FileState) :=
  match load_state fs with
  | Except.error e => Except.error e
  | Except.ok (r, _) =>
      Except.ok ((incoming_call r now).1, FileState.valid (incoming_call r now).2)

/-- Result of the `POST /process-recording` handler: the TwiML response, the
persisted record after the call, and how many times the recording fetch
(`requests.get`) was attempted. -/
structure ProcResult where
  steps : List Twiml
  store : ModeRecord
  fetch_attempts : Nat
deriving DecidableEq

/-- The `POST /process-recording` handler: loads the state once, then
* no `RecordingUrl` → apology and hangup, fetch never attempted;
* fetch raises → error sentence and hangup (single attempt, no retry);
* else the transcript (`""` on STT failure) is classified; if urgent and a
  truthy `user_number` is stored, speak the connect sentence and dial it;
  otherwise speak `mode_reply` and hang up.
The handler never writes the state file. -/
def process_recording (store : ModeRecord) (recording_url : Option String)
    (fetch_ok : Bool) (stt : Option (List Char)) : ProcResult :=
  if pyTruthy recording_url = false then
    { steps := [Twiml.say "Sorry, I did not get that. Goodbye.", Twiml.hangup],
      store := store, fetch_attempts := 0 }
  else if fetch_ok = false then
    { steps := [Twiml.say "Sorry, there was an error processing your message.", Twiml.hangup],
      store := store, fetch_attempts := 1 }
  else if is_urgent (stt.getD []) && pyTruthy store.user_number then
    { steps := [Twiml.say "This seems urgent. I will connect you to the user now. Please hold.",
                Twiml.dial (store.user_number.getD "")],
      store := store, fetch_attempts := 1 }
  else
    { steps := [Twiml.say (mode_reply store (stt.getD [])), Twiml.hangup],
      store := store, fetch_attempts := 1 }

/-- One full inbound-call traversal: the greeting webhook runs against the
record `store0`, then — because `/process-recording` is a separate HTTP
request that re-loads the file — an optional `mid_put` models a dashboard
write landing between the two webhook steps, and the recording webhook runs
against whatever the file then holds. -/
def call_traversal (store0 : ModeRecord) (now : Int) (mid_put : Option ModeRecord)
    (recording_url : Option String) (fetch_ok : Bool) (stt : Option (List Char)) :
    List Twiml × ProcResult :=
  ((incoming_call store0 now).1,
   process_recording (mid_put.getD (incoming_call store0 now).2) recording_url fetch_ok stt)

/-! ## Claim theorems -/

/-- C10: `clear_mode` persists `mode="normal"`, `reason=""`, `active=false`,
`expires=null`, and leaves `user_number` unchanged; as the record has no
other field, nothing else is modified. -/
theorem C10_clear_mode_frame (store : ModeRecord) :
    (clear_mode store).mode = "normal" ∧
    (clear_mode store).reason = "" ∧
    (clear_mode store).active = false ∧
    (clear_mode store).expires = ExpiresField.null ∧
    (clear_mode store).user_number = store.user_number :=
  ⟨rfl, rfl, rfl, rfl, rfl⟩

/-- C3 (code bug): when the state file exists but is not valid JSON,
`load_state` raises (`json.load` has no exception handler) instead of
degrading to the default inactive record, and the error propagates out of
the inbound-call handler; only a missing file is healed to the default. -/
theorem C3_corrupt_state_raises :
    load_state FileState.corrupt = Except.error () ∧
    incoming_call_file FileState.corrupt 0 = Except.error () ∧
    load_state FileState.missing =
      Except.ok (default_state, FileState.valid default_state) :=
  ⟨rfl, rfl, rfl⟩

/-- C8: when the recording fetch raises, `process_recording` responds with
the spoken error sentence followed by hangup, attempts the fetch exactly
once, and persists the record it loaded unchanged. -/
theorem C8_fetch_failure (store : ModeRecord) (recording_url : Option String)
    (stt : Option (List Char)) (h : pyTruthy recording_url = true) :
    process_recording store recording_url false stt =
      { steps := [Twiml.say "Sorry, there was an error processing your message.",
                  Twiml.hangup],
        store := store, fetch_attempts := 1 } := by
  simp [process_recording, h]

/-- Witness for C8 at a concrete record and recording URL. -/
theorem C8_fetch_failure_witness :
    process_recording default_state (some "RE1234") false none =
      { steps := [Twiml.say "Sorry, there was an error processing your message.",
                  Twiml.hangup],
        store := default_state, fetch_attempts := 1 } :=
  C8_fetch_failure default_state (some "RE1234") none rfl

/-- C4: `set_mode` persists `active=true`; a duration that parses as an
integer `d` yields `expires = now + clamp(d,1,60)` minutes, and a missing or
unparseable duration yields `expires = now + 5` minutes. -/
theorem C4_duration_clamp (req : SetModeRequest) (now : Int) :
    (set_mode req now).active = true ∧
    (∀ d : Int, req.duration = some (some d) →
        (set_mode req now).expires = ExpiresField.time (now + max 1 (min d 60))) ∧
    (req.duration = none →
        (set_mode req now).expires = ExpiresField.time (now + 5)) ∧
    (req.duration = some none →
        (set_mode req now).expires = ExpiresField.time (now + 5)) := by
  refine ⟨rfl, ?_, ?_, ?_⟩
  · intro d hd
    simp only [set_mode, hd, parse_duration]
    have : (if d < 1 then 1 else if d > 60 then (60 : Int) else d) = max 1 (min d 60) := by
      split
      · omega
      · split <;> omega
    rw [this]
  · intro hd; simp [set_mode, hd, parse_duration]
  · intro hd; simp [set_mode, hd, parse_duration]

/-- Witness for C4: duration 90 is clamped to 60, and the record is
persisted active. -/
theorem C4_duration_clamp_witness :
    (set_mode { mode := some "sleep", reason := some "",
                duration := some (some 90), user_number := some "+15550001111" } 0).active
        = true ∧
    (set_mode { mode := some "sleep", reason := some "",
                duration := some (some 90), user_number := some "+15550001111" } 0).expires
        = ExpiresField.time 60 := by
  have h := C4_duration_clamp
    { mode := some "sleep", reason := some "",
      duration := some (some 90), user_number := some "+15550001111" } 0
  refine ⟨h.1, ?_⟩
  rw [h.2.1 90 rfl]
  decide

/-- C5 (counterexample): the claim says a mode outside
{normal, sleep, meeting, driving, custom} is persisted as `normal`, but
`set_mode` performs no validation: the request mode `"party"` is persisted
verbatim. -/
theorem C5_no_mode_validation :
    (set_mode { mode := some "party", reason := some "",
                duration := some (some 5), user_number := none } 0).mode = "party" ∧
    ("party" : String) ≠ "normal" ∧
    "party" ∉ (["normal", "sleep", "meeting", "driving", "custom"] : List String) := by
  refine ⟨rfl, ?_, ?_⟩ <;> decide

/-- C5 (amended): a missing mode field defaults to `"normal"`; a supplied
mode string is persisted verbatim, with no validation against the enumerated
modes. -/
theorem C5_mode_default (req : SetModeRequest) (now : Int) :
    (req.mode = none → (set_mode req now).mode = "normal") ∧
    (∀ m : String, req.mode = some m → (set_mode req now).mode = m) := by
  constructor
  · intro h; simp [set_mode, h]
  · intro m h; simp [set_mode, h]

/-- Witness for C5 (amended): a missing mode yields `"normal"`, and the
non-enumerated mode `"party"` is persisted verbatim. -/
theorem C5_mode_default_witness :
    (set_mode { mode := none, reason := none,
                duration := none, user_number := none } 0).mode = "normal" ∧
    (set_mode { mode := some "party", reason := none,
                duration := none, user_number := none } 0).mode = "party" :=
  ⟨(C5_mode_default
      { mode := none, reason := none, duration := none, user_number := none } 0).1 rfl,
   (C5_mode_default
      { mode := some "party", reason := none, duration := none, user_number := none }
      0).2 "party" rfl⟩

/-- C1 (counterexample): for the stored record
`{mode=sleep, active=true, expires=0}` queried at time 1, the status query
does return `active=false`, but the record it persists still carries the
stale past timestamp — not `expires=null` as the claim states — because
`status` re-saves its pre-heal snapshot over the correction that
`is_mode_active` had persisted. -/
theorem C1_status_keeps_stale_expires :
    ({ mode := "sleep", reason := "", active := true,
       expires := ExpiresField.time 0, user_number := none } : ModeRecord).active = true ∧
    (0 : Int) < 1 ∧
    (status { mode := "sleep", reason := "", active := true,
              expires := ExpiresField.time 0, user_number := none } 1).2.expires =
        ExpiresField.time 0 ∧
    (status { mode := "sleep", reason := "", active := true,
              expires := ExpiresField.time 0, user_number := none } 1).2.expires ≠
        ExpiresField.null := by
  refine ⟨rfl, by decide, ?_, ?_⟩ <;> decide

/-- C1 (amended): for every stored record with `active=true` and an expires
timestamp strictly in the past, the status query returns `active=false` and
persists `active=false`, but the persisted record keeps its stale past
`expires` timestamp (the `expires=null` correction written by
`is_mode_active` is overwritten by `status`'s own save of its pre-heal
snapshot); an immediately repeated query returns the same record and leaves
the persisted record unchanged. -/
theorem C1_status_self_heal (r : ModeRecord) (t now : Int)
    (hact : r.active = true) (hexp : r.expires = ExpiresField.time t) (hpast : t < now) :
    (status r now).1.active = false ∧
    (status r now).2.active = false ∧
    (status r now).2.expires = ExpiresField.time t ∧
    status (status r now).2 now = ((status r now).2, (status r now).2) := by
  have hgt : now > t := hpast
  have h1 : (is_mode_active r now).1 = false := by
    simp [is_mode_active, hact, hexp, hgt]
  have h2 : (status r now).2 = { r with active := false } := by
    simp [status, h1]
  refine ⟨by simp [status, h1], by simp [h2], by simp [h2, hexp], ?_⟩
  have h3 : (is_mode_active ({ r with active := false } : ModeRecord) now).1 = false := by
    simp [is_mode_active]
  rw [h2]
  simp [status, h3]

/-- Witness for C1 (amended) at the record
`{mode=sleep, active=true, expires=0}` queried at time 1. -/
theorem C1_status_self_heal_witness :
    (status { mode := "sleep", reason := "", active := true,
              expires := ExpiresField.time 0, user_number := none } 1).1.active = false ∧
    (status { mode := "sleep", reason := "", active := true,
              expires := ExpiresField.time 0, user_number := none } 1).2.active = false ∧
    (status { mode := "sleep", reason := "", active := true,
              expires := ExpiresField.time 0, user_number := none } 1).2.expires =
        ExpiresField.time 0 ∧
    status (status { mode := "sleep", reason := "", active := true,
                     expires := ExpiresField.time 0, user_number := none } 1).2 1 =
      ((status { mode := "sleep", reason := "", active := true,
                 expires := ExpiresField.time 0, user_number := none } 1).2,
       (status { mode := "sleep", reason := "", active := true,
                 expires := ExpiresField.time 0, user_number := none } 1).2) :=
  C1_status_self_heal
    { mode := "sleep", reason := "", active := true,
      expires := ExpiresField.time 0, user_number := none } 0 1 rfl rfl (by decide)

/-- C2: once the routing decision is reached (a recording reference is
present and the fetch succeeded, transcript `text`), the handler bridges —
speaks the connecting sentence and dials the stored `user_number` — exactly
when the urgency classifier accepts the transcript and the stored
`user_number` is set and non-empty; in every other case it speaks the
composed `mode_reply` and hangs up. -/
theorem C2_routing_decision (state : ModeRecord) (text : List Char)
    (recording_url : Option String) (h : pyTruthy recording_url = true) :
    ((process_recording state recording_url true (some text)).steps =
        [Twiml.say "This seems urgent. I will connect you to the user now. Please hold.",
         Twiml.dial (state.user_number.getD "")] ↔
      (is_urgent text = true ∧ pyTruthy state.user_number = true)) ∧
    ((process_recording state recording_url true (some text)).steps =
        [Twiml.say (mode_reply state text), Twiml.hangup] ↔
      ¬(is_urgent text = true ∧ pyTruthy state.user_number = true)) := by
  cases hu : is_urgent text <;> cases hn : pyTruthy state.user_number <;>
    simp [process_recording, h, hu, hn]

/-- Witness for C2: an urgent transcript with a stored forward number is
bridged. -/
theorem C2_routing_decision_witness :
    (process_recording
        { mode := "meeting", reason := "", active := true,
          expires := ExpiresField.time 5, user_number := some "+15550001111" }
        (some "RE1234") true (some "this is an emergency, help".toList)).steps =
      [Twiml.say "This seems urgent. I will connect you to the user now. Please hold.",
       Twiml.dial "+15550001111"] := by
  have h := C2_routing_decision
    { mode := "meeting", reason := "", active := true,
      expires := ExpiresField.time 5, user_number := some "+15550001111" }
    ("this is an emergency, help".toList) (some "RE1234") rfl
  exact h.1.mpr ⟨by decide, rfl⟩

/-- C9 (counterexample): two traversals that start from the same stored
record (active sleep mode) produce different outputs when a mode change to
driving is put to the store between the greeting webhook and the
recording webhook, refuting the one-snapshot-per-traversal claim. -/
theorem C9_mid_call_write_changes_routing :
    call_traversal
        { mode := "sleep", reason := "", active := true,
          expires := ExpiresField.time 100, user_number := none }
        0 none (some "RE1234") true (some "hi".toList) ≠
      call_traversal
        { mode := "sleep", reason := "", active := true,
          expires := ExpiresField.time 100, user_number := none }
        0 (some { mode := "driving", reason := "", active := true,
                  expires := ExpiresField.time 100, user_number := none })
        (some "RE1234") true (some "hi".toList) := by
  decide

/-- C9 (amended): each webhook handler uses its own snapshot — the routing
decision of `process_recording` is a function of the record the store holds
when that handler starts (the put applied between the two webhook steps, or
the record left by `incoming_call` when no such put happened), not of the
record the traversal started from. -/
theorem C9_per_handler_snapshot (store0 : ModeRecord) (now : Int) (r : ModeRecord)
    (recording_url : Option String) (fetch_ok : Bool) (stt : Option (List Char)) :
    (call_traversal store0 now (some r) recording_url fetch_ok stt).2 =
      process_recording r recording_url fetch_ok stt ∧
    (call_traversal store0 now none recording_url fetch_ok stt).2 =
      process_recording (incoming_call store0 now).2 recording_url fetch_ok stt :=
  ⟨rfl, rfl⟩

/-! ## String lemmas for the keyword classifier -/

theorem isWS_toLower_fix {c : Char} (h : isWS c = true) : Char.toLower c = c := by
  simp only [isWS, Bool.or_eq_true, beq_iff_eq] at h
  rcases h with ((((h | h) | h) | h) | h) | h <;> subst h <;> decide

theorem isWS_toLower_false {c : Char} (h : isWS (Char.toLower c) = false) :
    isWS c = false := by
  cases hws : isWS c
  · rfl
  · rw [isWS_toLower_fix hws, hws] at h
    simp at h

theorem pyStrip_infix_self (l : List Char) : pyStrip l <:+: l := by
  have h1 : (l.dropWhile isWS).reverse.dropWhile isWS <:+ (l.dropWhile isWS).reverse :=
    List.dropWhile_suffix isWS
  have h2 := List.reverse_prefix.mpr h1
  rw [List.reverse_reverse] at h2
  exact h2.isInfix.trans (List.dropWhile_suffix isWS).isInfix

theorem infix_dropWhile_of_not_ws {w l : List Char} (hw : w ≠ [])
    (hws : ∀ c ∈ w, isWS c = false) (h : w <:+: l) :
    w <:+: l.dropWhile isWS := by
  obtain ⟨s, t, rfl⟩ := h
  rw [List.append_assoc, List.dropWhile_append]
  split
  · cases w with
    | nil => exact absurd rfl hw
    | cons c w' =>
      rw [List.cons_append, List.dropWhile_cons, hws c (List.mem_cons_self c w')]
      simp only [Bool.false_eq_true, if_false]
      exact ⟨[], t, by simp⟩
  · exact ⟨s.dropWhile isWS, t, by rw [List.append_assoc]⟩

theorem infix_pyStrip_of_not_ws {w l : List Char} (hw : w ≠ [])
    (hws : ∀ c ∈ w, isWS c = false) (h : w <:+: l) :
    w <:+: pyStrip l := by
  have h1 : w <:+: l.dropWhile isWS := infix_dropWhile_of_not_ws hw hws h
  have h2 : w.reverse <:+: (l.dropWhile isWS).reverse := List.reverse_infix.mpr h1
  have h3 : w.reverse <:+: (l.dropWhile isWS).reverse.dropWhile isWS :=
    infix_dropWhile_of_not_ws (by simpa using hw)
      (fun c hc => hws c (List.mem_reverse.mp hc)) h2
  have h4 := List.reverse_infix.mpr h3
  rw [List.reverse_reverse] at h4
  exact h4

theorem pyStrip_eq_nil_iff (l : List Char) : pyStrip l = [] ↔ l.all isWS = true := by
  constructor
  · intro h
    unfold pyStrip at h
    rw [List.reverse_eq_nil_iff, List.dropWhile_eq_nil_iff] at h
    rw [List.all_eq_true]
    intro c hc
    rw [← List.takeWhile_append_dropWhile (p := isWS) (l := l)] at hc
    rcases List.mem_append.mp hc with h1 | h2
    · exact List.mem_takeWhile_imp h1
    · exact h c (List.mem_reverse.mpr h2)
  · intro h
    have hd : l.dropWhile isWS = [] :=
      List.dropWhile_eq_nil_iff.mpr (fun x hx => List.all_eq_true.mp h x hx)
    unfold pyStrip
    rw [hd]
    rfl

theorem infix_pyLower_pyStrip {w text : List Char} (hw : w ≠ [])
    (hws : ∀ c ∈ w, isWS c = false) :
    w <:+: pyLower (pyStrip text) ↔ w <:+: pyLower text := by
  constructor
  · intro h
    exact h.trans ((pyStrip_infix_self text).map Char.toLower)
  · intro h
    obtain ⟨s, t, hst⟩ := h
    simp only [pyLower] at hst
    have hmap : List.map Char.toLower text = s ++ w ++ t := hst.symm
    obtain ⟨sw', t', htext, hsw, _⟩ := List.map_eq_append_iff.mp hmap
    obtain ⟨s', m, hsw', hs', hm⟩ := List.map_eq_append_iff.mp hsw
    have hm_ne : m ≠ [] := by
      intro h0
      rw [h0] at hm
      exact hw (by simpa using hm.symm)
    have hm_ws : ∀ c ∈ m, isWS c = false := by
      intro c hc
      have : Char.toLower c ∈ w := by
        rw [← hm]
        exact List.mem_map_of_mem Char.toLower hc
      exact isWS_toLower_false (hws _ this)
    have hm_inf : m <:+: text := by
      refine ⟨s', t', ?_⟩
      rw [htext, hsw']
    have h2 : m <:+: pyStrip text := infix_pyStrip_of_not_ws hm_ne hm_ws hm_inf
    have h3 := h2.map Char.toLower
    rw [hm] at h3
    exact h3

theorem urgent_words_not_ws :
    ∀ w ∈ urgent_words, w ≠ [] ∧ ∀ c ∈ w, isWS c = false := by
  decide

/-- C6: with no external classification credential configured, the
classifier equals the keyword-scan reference function — `false` for every
empty or whitespace-only input, and for non-blank input `true` exactly when
the lower-cased text contains one of the vocabulary substrings. -/
theorem C6_keyword_classifier (text : List Char) :
    is_urgent text = keyword_scan_spec text := by
  unfold is_urgent keyword_scan_spec
  by_cases hb : pyStrip text = []
  · rw [if_pos hb, if_pos ((pyStrip_eq_nil_iff text).mp hb)]
  · rw [if_neg hb, if_neg (fun hall => hb ((pyStrip_eq_nil_iff text).mpr hall))]
    refine Bool.eq_iff_iff.mpr ?_
    simp only [List.any_eq_true, decide_eq_true_eq]
    constructor
    · rintro ⟨w, hwmem, hwi⟩
      exact ⟨w, hwmem, (infix_pyLower_pyStrip (urgent_words_not_ws w hwmem).1
        (urgent_words_not_ws w hwmem).2).mp hwi⟩
    · rintro ⟨w, hwmem, hwi⟩
      exact ⟨w, hwmem, (infix_pyLower_pyStrip (urgent_words_not_ws w hwmem).1
        (urgent_words_not_ws w hwmem).2).mpr hwi⟩

/-- C7 (counterexample): the claim maps `custom` with empty reason, `normal`
and inactive records all to one generic sentence, but the code gives
`custom`-with-empty-reason its own sentence, different from the `normal`
fallback; and an inactive record whose stored mode is `sleep` still gets the
sleep sentence, not a generic one. -/
theorem C7_two_generic_sentences :
    mode_reply { mode := "custom", reason := "", active := false,
                 expires := ExpiresField.null, user_number := none } [] ≠
      mode_reply { mode := "normal", reason := "", active := false,
                   expires := ExpiresField.null, user_number := none } [] ∧
    mode_reply { mode := "sleep", reason := "", active := false,
                 expires := ExpiresField.null, user_number := none } [] =
      "The user is currently sleeping. I will notify them." := by
  constructor
  · decide
  · rfl

/-- C7 (amended): `mode_reply` is a deterministic function of
`(mode, reason)` only (the transcript and the `active` flag are ignored, so
inactive records are composed from their stored mode like active ones),
evaluated with precedence sleep, meeting, driving, custom, fallback:
`sleep`, `meeting`, `driving` map to their fixed sentences; `custom` with a
non-empty reason maps to the templated sentence embedding the reason;
`custom` with an empty reason maps to its own generic sentence
("currently unavailable"); every other mode, including `normal`, maps to the
distinct fallback sentence ("not available right now"). -/
theorem C7_mode_reply_mapping (s : ModeRecord) (t : List Char) :
    (∀ (s' : ModeRecord) (t' : List Char), s.mode = s'.mode → s.reason = s'.reason →
        mode_reply s t = mode_reply s' t') ∧
    (s.mode = "sleep" →
        mode_reply s t = "The user is currently sleeping. I will notify them.") ∧
    (s.mode = "meeting" →
        mode_reply s t = "The user is in a meeting and cannot take calls right now.") ∧
    (s.mode = "driving" →
        mode_reply s t = "The user is driving. I will tell them to call you when safe.") ∧
    (s.mode = "custom" → s.reason ≠ "" →
        mode_reply s t = "The user is not available: " ++ s.reason ++ ". I will let them know.") ∧
    (s.mode = "custom" → s.reason = "" →
        mode_reply s t = "The user is currently unavailable. I will notify them.") ∧
    (s.mode ∉ (["sleep", "meeting", "driving", "custom"] : List String) →
        mode_reply s t = "The user is not available right now. They will call you back soon.") := by
  refine ⟨?_, ?_, ?_, ?_, ?_, ?_, ?_⟩
  · intro s' t' hm hr
    simp only [mode_reply, hm, hr]
  · intro h; simp [mode_reply, h]
  · intro h; simp [mode_reply, h]
  · intro h; simp [mode_reply, h]
  · intro h hr; simp [mode_reply, h, hr]
  · intro h hr; simp [mode_reply, h, hr]
  · intro h
    simp only [List.mem_cons, List.not_mem_nil, or_false, not_or] at h
    obtain ⟨h1, h2, h3, h4⟩ := h
    simp [mode_reply, h1, h2, h3, h4]

/-- Witness for C7 (amended): a custom record with a non-empty reason gets
the templated sentence, and an inactive sleep record gets the sleep
sentence regardless of the transcript. -/
theorem C7_mode_reply_mapping_witness :
    mode_reply { mode := "custom", reason := "on vacation", active := true,
                 expires := ExpiresField.time 9, user_number := none } [] =
      "The user is not available: on vacation. I will let them know." ∧
    mode_reply { mode := "sleep", reason := "", active := false,
                 expires := ExpiresField.null, user_number := none } "hello".toList =
      "The user is currently sleeping. I will notify them." :=
  ⟨(C7_mode_reply_mapping
      { mode := "custom", reason := "on vacation", active := true,
        expires := ExpiresField.time 9, user_number := none } []).2.2.2.2.1
      rfl (by decide),
   (C7_mode_reply_mapping
      { mode := "sleep", reason := "", active := false,
        expires := ExpiresField.null, user_number := none } "hello".toList).2.1 rfl⟩

end CallAI
